import Mathlib

/-!
Shallow embedding of `Run_GamingNetworkOptimization_Admin.py`, the
privilege-elevation launcher of the Windows-Gaming-Network-Optimization-Script
repository, together with proofs about its behaviour.

The program is a sequential script with three stages:
`get_network_adapters_from_powershell` (adapter enumeration),
`select_guids_for_tweaks` (interactive selection loop) and `run_script`
(parameter construction plus the `ShellExecuteW` elevation call).  Console
interaction is modelled explicitly: the selection loop consumes a list of
input lines (what the operator types) and produces a trace of output
messages together with a result.
-/

namespace GamingNetOpt

/-- An adapter record as parsed from the PowerShell JSON output.  The
PowerShell query projects the fields `Name`, `InterfaceDescription` and
`InterfaceGuid` with `Select-Object`, so the `Name` and
`InterfaceDescription` keys are always present in each record; the
`InterfaceGuid` key is modelled as optional because the Python code accesses
it both with a defaulted `adapter.get('InterfaceGuid', 'N/A')` (listing) and
with a bare `chosen_adapter['InterfaceGuid']` (selection), the latter raising
`KeyError` when the key is absent. -/
structure Adapter where
  Name : String
  InterfaceDescription : String
  InterfaceGuid : Option String
  deriving DecidableEq, Repr

instance : Inhabited Adapter := ⟨⟨"", "", none⟩⟩

/-- A parsed JSON response of the adapter query: either a single bare record
(`ConvertTo-Json` collapses one-element results to a bare object) or a
collection of records. -/
inductive JsonValue where
  | record (a : Adapter)
  | collection (l : List Adapter)
  deriving DecidableEq, Repr

/-- The error paths of `get_network_adapters_from_powershell`: the PowerShell
command exits non-zero (`subprocess.CalledProcessError`), its output fails to
parse (`json.JSONDecodeError`), or any other exception. -/
inductive EnumError where
  | calledProcessError
  | jsonDecodeError
  | otherException
  deriving DecidableEq, Repr

/-- Embedding of `get_network_adapters_from_powershell` (lines 10-45).  The
external world is abstracted as the outcome of the PowerShell invocation: an
error, or a successfully parsed JSON value.  On any error the function prints
and shows a message box, then returns `None` (modelled `none`); on success a
bare object is wrapped into a one-element list (lines 28-29) and a collection
is returned as-is (line 30). -/
def get_network_adapters_from_powershell (resp : Except EnumError JsonValue) :
    Option (List Adapter) :=
  match resp with
  | .error _ => none
  | .ok (.record a) => [a]
  | .ok (.collection l) => l

/-- Console output (prints and `input` prompts) of the selector, one
constructor per message of `select_guids_for_tweaks`, carrying the dynamic
data interpolated into the corresponding f-string. -/
inductive Msg where
  | noAdapters
  | header
  | adapterLine (idx : Nat) (name desc guid : String)
  | selectionBanner
  | promptFirst
  | promptMore (guids : List String)
  | doneNone
  | skipAll
  | added (name guid : String)
  | alreadySelected (name : String)
  | allSelected
  | addMorePrompt
  | invalidRange (count : Nat)
  | invalidInput
  deriving DecidableEq, Repr

/-- Result of running the selection loop against a finite list of input
lines: the function returned a list of GUIDs, it raised an uncaught
`KeyError` (line 91, only `ValueError` is caught), or it blocked on `input()`
after exhausting the supplied lines. -/
inductive SelectResult where
  | returns (guids : List String)
  | keyError
  | outOfInput (guids : List String)
  deriving DecidableEq, Repr

/-- Whitespace characters removed by Python `str.strip()` (the ASCII ones;
Unicode whitespace beyond these is not modelled). -/
def isPySpace (c : Char) : Bool :=
  c = ' ' || c = '\t' || c = '\n' || c = '\r' || c = '\x0b' || c = '\x0c'

/-- Python `str.strip()` on a character list: drop leading and trailing
whitespace. -/
def pyStrip (l : List Char) : List Char :=
  ((l.dropWhile isPySpace).reverse.dropWhile isPySpace).reverse

/-- Python `str.lower()` on one character (ASCII range; the control words
the script compares against are ASCII). -/
def pyLowerChar (c : Char) : Char :=
  if 'A' ≤ c && c ≤ 'Z' then Char.ofNat (c.toNat + 32) else c

/-- Normalisation `.strip().lower()` applied to each input line (line 76). -/
def pyNorm (s : String) : String :=
  ⟨(pyStrip s.data).map pyLowerChar⟩

/-- Value of one decimal digit character. -/
def digitVal? (c : Char) : Option Nat :=
  if '0' ≤ c && c ≤ '9' then some (c.toNat - '0'.toNat) else none

/-- Accumulating decimal evaluation of a digit run; `none` when a non-digit
appears. -/
def digitsAux : List Char → Nat → Option Nat
  | [], acc => some acc
  | c :: cs, acc =>
    match digitVal? c with
    | none => none
    | some d => digitsAux cs (acc * 10 + d)

/-- A non-empty run of decimal digits evaluated as a natural number. -/
def digitsVal? : List Char → Option Nat
  | [] => none
  | l => digitsAux l 0

/-- Parsing `int(choice_str)` (line 88) on an already stripped and lowered
string: an optional sign followed by a non-empty digit run; `none` models the
`ValueError` caught at line 108.  (Python additionally accepts numeric-literal
underscores and non-ASCII digits, which no claim exercises.) -/
def pyInt? (s : String) : Option Int :=
  match s.data with
  | '-' :: rest => (digitsVal? rest).map (fun v => -(v : Int))
  | '+' :: rest => (digitsVal? rest).map (fun v => (v : Int))
  | l => (digitsVal? l).map (fun v => (v : Int))

/-- The prompt printed by `input(prompt_message)` at the top of each loop
iteration (lines 71-74): a first-time prompt while nothing is selected, else
a prompt that echoes the selected GUIDs. -/
def promptMsg (guids : List String) : Msg :=
  if guids.isEmpty then .promptFirst else .promptMore guids

/-- How one iteration of the `while True` loop acts after reading one input
line: the function returns a result (`ret`), the uncaught `KeyError` of line
91 propagates (`err`), the loop continues with an updated `selected_guids`
(`next`), or control reaches the `add_more_choice` prompt of line 103
(`ask`).  Each action carries the messages printed after the input line was
read. -/
inductive StepAction where
  | ret (msgs : List Msg) (result : List String)
  | err (msgs : List Msg)
  | next (msgs : List Msg) (guids : List String)
  | ask (msgs : List Msg) (guids : List String)
  deriving DecidableEq, Repr

/-- The body of the `while True` loop of `select_guids_for_tweaks` for one
already-read input line (lines 76-109): the `done` and `skip` control words,
`int` parsing with `ValueError` caught at line 108, the range guard of line
89, the `KeyError`-prone GUID lookup of line 91, deduplication (lines
92-96), the all-selected exit (lines 98-100) and the `if not selected_guids`
guard of line 102 in front of the add-more prompt. -/
def selectStep (adapters : List Adapter) (guids : List String) (line : String) :
    StepAction :=
  let choice := pyNorm line
  if choice = "done" then
    if guids.isEmpty then .ret [.doneNone] []
    else .ret [] guids
  else if choice = "skip" then
    .ret [.skipAll] []
  else
    match pyInt? choice with
    | none => .next [.invalidInput] guids
    | some n =>
      if 1 ≤ n ∧ n ≤ (adapters.length : Int) then
        -- the guard of line 89 makes the index of line 90 in bounds,
        -- so the default of `getD` is never read
        let chosen := adapters.getD (n - 1).toNat default
        match chosen.InterfaceGuid with
        | none => .err []
        | some g =>
          let step :=
            if g ∈ guids then (Msg.alreadySelected chosen.Name, guids)
            else (Msg.added chosen.Name g, guids ++ [g])
          if step.2.length = adapters.length then .ret [step.1, .allSelected] step.2
          else if step.2.isEmpty then .ask [step.1, .addMorePrompt] step.2
          else .next [step.1] step.2
      else .next [.invalidRange adapters.length] guids

/-- The `while True` input loop of `select_guids_for_tweaks` (lines 68-111),
with `guids` the current value of `selected_guids` and `inputs` the lines the
operator will type.  Each iteration consumes one line (and the inner
`add_more_choice` prompt of line 103 one further line when reached).
An exhausted input list means the Python program is still blocked on
`input()`, modelled as `SelectResult.outOfInput`. -/
def selectLoop (adapters : List Adapter) (guids : List String) :
    List String → List Msg × SelectResult
  | [] => ([promptMsg guids], .outOfInput guids)
  | line :: rest =>
    match selectStep adapters guids line with
    | .ret msgs result => (promptMsg guids :: msgs, .returns result)
    | .err msgs => (promptMsg guids :: msgs, .keyError)
    | .next msgs guids2 =>
      let tr := selectLoop adapters guids2 rest
      (promptMsg guids :: msgs ++ tr.1, tr.2)
    | .ask msgs guids2 =>
      match rest with
      | [] => (promptMsg guids :: msgs, .outOfInput guids2)
      | ans :: rest2 =>
        if pyNorm ans = "yes" ∨ pyNorm ans = "y" then
          let tr := selectLoop adapters guids2 rest2
          (promptMsg guids :: msgs ++ tr.1, tr.2)
        else (promptMsg guids :: msgs, .returns guids2)

/-- The adapter listing printed before the loop (lines 56-61) followed by the
static guidance banner (lines 63-66): one line per adapter with a 1-based
index, name, description, and the GUID defaulted to `"N/A"` when the
`InterfaceGuid` key is absent (`adapter.get('InterfaceGuid', 'N/A')`). -/
def adapterListing (adapters : List Adapter) : List Msg :=
  Msg.header ::
    (adapters.enum.map fun p =>
      Msg.adapterLine (p.1 + 1) p.2.Name p.2.InterfaceDescription
        (p.2.InterfaceGuid.getD "N/A")) ++ [Msg.selectionBanner]

/-- Embedding of `select_guids_for_tweaks` (lines 47-111): an empty (or
`None`, not distinguished here since `run_script` filters `None` first)
adapter list short-circuits to an empty selection with a notice and no
prompt (lines 52-54); otherwise the listing is printed and the input loop is
entered with an empty `selected_guids`. -/
def select_guids_for_tweaks (adapters : List Adapter) (inputs : List String) :
    List Msg × SelectResult :=
  if adapters.isEmpty then ([Msg.noAdapters], .returns [])
  else
    let tr := selectLoop adapters [] inputs
    (adapterListing adapters ++ tr.1, tr.2)

/-- The human-readable causes appended to the launch error message by the
`elif` chain of lines 161-166. -/
inductive ErrCause where
  | outOfResources
  | fileNotFound
  | pathNotFound
  | accessDenied
  | cancelledByUser
  | generic
  deriving DecidableEq, Repr

/-- Outcome of the `ShellExecuteW` call as interpreted by `run_script`:
either the success message of lines 170-176, or the error report of lines
158-169 with its cause. -/
inductive LaunchOutcome where
  | success
  | failed (cause : ErrCause)
  deriving DecidableEq, Repr

/-- Embedding of the return-code interpretation of lines 158-176: `ret <= 32`
enters the error branch whose `elif` chain distinguishes 0, 2, 3, 5 and 1223
before falling back to the generic message; any other return value takes the
success branch. -/
def launch_outcome (ret : Int) : LaunchOutcome :=
  if ret ≤ 32 then
    .failed
      (if ret = 0 then .outOfResources
       else if ret = 2 then .fileNotFound
       else if ret = 3 then .pathNotFound
       else if ret = 5 then .accessDenied
       else if ret = 1223 then .cancelledByUser
       else .generic)
  else .success

/-- The comma-separated GUID string of line 141:
`guids_csv_for_ps = ",".join(selected_guids)`. -/
def guids_csv_for_ps (selected_guids : List String) : String :=
  String.intercalate "," selected_guids

/-- The parameter string of line 151 handed to `ShellExecuteW`. -/
def script_parameters (target_ps_script_path : String) (selected_guids : List String) : String :=
  "-NoProfile -ExecutionPolicy Bypass -File \"" ++ target_ps_script_path ++
    "\" -TargetGuidsCsv \"" ++ guids_csv_for_ps selected_guids ++ "\""

/-- Result of one execution of `run_script`: early return because the
companion script is missing (lines 124-132), early return because adapter
enumeration failed (lines 136-138), the selector blocked on `input()` or
raised an uncaught `KeyError`, or the elevation call was made with a
parameter string and its return code interpreted. -/
inductive RunResult where
  | scriptNotFound
  | abortedEnumeration
  | blocked
  | uncaughtError
  | launched (params : String) (outcome : LaunchOutcome)
  deriving DecidableEq, Repr

/-- Embedding of `run_script` (lines 113-181).  The environment is abstracted
as: whether the companion script exists at the resolved path
(`os.path.exists`, line 124), the outcome of the PowerShell invocation, the
operator's input lines, and the numeric return value of `ShellExecuteW`.
The exception handler of lines 178-181 is not modelled: `ret` abstracts a
completed `ShellExecuteW` call. -/
def run_script (scriptExists : Bool) (target_ps_script_path : String)
    (resp : Except EnumError JsonValue) (inputs : List String) (ret : Int) : RunResult :=
  if !scriptExists then .scriptNotFound
  else
    match get_network_adapters_from_powershell resp with
    | none => .abortedEnumeration
    | some adapters =>
      match (select_guids_for_tweaks adapters inputs).2 with
      | .keyError => .uncaughtError
      | .outOfInput _ => .blocked
      | .returns selected_guids =>
        .launched (script_parameters target_ps_script_path selected_guids)
          (launch_outcome ret)

/-! Spec-side definitions, written from the specification's words, used only
to compare against the embedded code (refinement-style claims). -/

/-- Written from the spec's words: identifiers joined in selection order,
separated by single commas, with no trailing comma. -/
def csvSpec : List String → String
  | [] => ""
  | [g] => g
  | g :: gs => g ++ "," ++ csvSpec gs

/-- Written from the amended reading of the spec's return-code table: values
above 32 are success; 5 is access denied, 2 file not found, 3 path not
found, 0 out of resources; every other value at most 32 gets the generic
message.  (The code's 1223 branch is unreachable because `1223 > 32`.) -/
def launchOutcomeSpec (ret : Int) : LaunchOutcome :=
  if 32 < ret then .success
  else if ret = 5 then .failed .accessDenied
  else if ret = 2 then .failed .fileNotFound
  else if ret = 3 then .failed .pathNotFound
  else if ret = 0 then .failed .outOfResources
  else .failed .generic

/-- Messages attached to a step action: what the loop body prints after
reading the line, whichever way the iteration exits. -/
def StepAction.msgList : StepAction → List Msg
  | .ret m _ => m
  | .err m => m
  | .next m _ => m
  | .ask m _ => m

/-- A concrete two-adapter environment with distinct GUIDs, used for the
concrete evaluations below. -/
def demoAdapters : List Adapter :=
  [⟨"EthA", "dA", some "G1"⟩, ⟨"EthB", "dB", some "G2"⟩]

/-- A concrete adapter record lacking the `InterfaceGuid` key. -/
def ghostAdapter : Adapter := ⟨"Ghost", "dG", none⟩

/-- The invariant of the selection list (claim C10): duplicate-free, and
every element is the `InterfaceGuid` of some record of the input adapter
list. -/
def SelInv (adapters : List Adapter) (gs : List String) : Prop :=
  gs.Nodup ∧ ∀ g ∈ gs, ∃ a ∈ adapters, a.InterfaceGuid = some g

/-- Possible evolutions of `selected_guids` across one loop iteration: reset
to empty (`skip`, or `done` with nothing selected), unchanged, or extended
at the back by one fresh GUID drawn from the adapter list. -/
def GuidExtension (adapters : List Adapter) (guids gs : List String) : Prop :=
  gs = [] ∨ gs = guids ∨
    ∃ g, (∃ a ∈ adapters, a.InterfaceGuid = some g) ∧ g ∉ guids ∧ gs = guids ++ [g]

/-! Helper lemmas about the comma join. -/

/-- Glueing lemma for `csvSpec`: a comma already folded into the head commutes
with the spec-side join. -/
lemma csvSpec_glue (x y : String) (as : List String) :
    csvSpec ((x ++ "," ++ y) :: as) = x ++ "," ++ csvSpec (y :: as) := by
  cases as with
  | nil => rfl
  | cons a2 as2 => simp [csvSpec, String.append_assoc]

/-- The accumulator loop of `String.intercalate` computes the spec-side
join. -/
lemma intercalate_go_csv :
    ∀ (as : List String) (g : String), String.intercalate.go g "," as = csvSpec (g :: as) := by
  intro as
  induction as with
  | nil => intro g; rfl
  | cons a rest ih =>
    intro g
    show String.intercalate.go (g ++ "," ++ a) "," rest = csvSpec (g :: a :: rest)
    rw [ih]
    exact csvSpec_glue g a rest

/-- `",".join(selected_guids)` agrees with the spec-side description of the
join. -/
lemma guids_csv_eq_csvSpec (gs : List String) : guids_csv_for_ps gs = csvSpec gs := by
  cases gs with
  | nil => rfl
  | cons g rest => exact intercalate_go_csv rest g

/-- Claim C4: for every SelectionSet returned by the selector, the parameter
string passed to the elevation call contains the identifiers joined in
selection order separated by single commas with no trailing comma; for
`["GUID-A", "GUID-B"]` the joined value is exactly `"GUID-A,GUID-B"`, and for
an empty SelectionSet it is the empty string. -/
theorem parameter_string_joins_guids (path : String) (guids : List String) :
    script_parameters path guids =
      "-NoProfile -ExecutionPolicy Bypass -File \"" ++ path ++
        "\" -TargetGuidsCsv \"" ++ csvSpec guids ++ "\"" ∧
    guids_csv_for_ps ["GUID-A", "GUID-B"] = "GUID-A,GUID-B" ∧
    guids_csv_for_ps [] = "" := by
  refine ⟨?_, by decide, rfl⟩
  simp [script_parameters, guids_csv_eq_csvSpec]

/-- Claim C1, counterexample: a return value of 1223 from the elevation call
is treated as success, not reported as cancelled by the user — the
`ret == 1223` branch sits inside `if ret <= 32`, which 1223 fails. -/
theorem launch_ret_1223_reported_success :
    launch_outcome 1223 = LaunchOutcome.success ∧
    launch_outcome 1223 ≠ LaunchOutcome.failed ErrCause.cancelledByUser := by
  decide

/-- Claim C1, amended: for every numeric return value of the elevation call,
5 is reported as access denied, 2 as file not found, 3 as path not found,
0 as out of resources, any other value at most 32 falls back to the generic
message, and any value greater than 32 — including 1223 — is treated as
success; the cancelled-by-user branch is unreachable. -/
theorem launch_outcome_matches_spec_table (ret : Int) :
    launch_outcome ret = launchOutcomeSpec ret := by
  unfold launch_outcome launchOutcomeSpec
  split_ifs <;> first | rfl | omega

/-- Claim C8: a query response parsing to a single bare record yields a
one-element AdapterList containing that record, and a response parsing to a
collection is returned as-is. -/
theorem enumerator_wraps_bare_record :
    (∀ a : Adapter,
      get_network_adapters_from_powershell (Except.ok (JsonValue.record a)) = some [a]) ∧
    (∀ l : List Adapter,
      get_network_adapters_from_powershell (Except.ok (JsonValue.collection l)) = some l) :=
  ⟨fun _ => rfl, fun _ => rfl⟩

/-- Claim C3, counterexample: an *empty* (as opposed to `None`) adapter
enumeration result does not abort the run — with the companion script
present, an empty collection response and return code 33, `run_script`
reaches the elevation call and reports success. -/
theorem empty_adapter_list_reaches_elevation :
    run_script true "C:/x" (Except.ok (JsonValue.collection [])) [] 33 =
      RunResult.launched (script_parameters "C:/x" []) LaunchOutcome.success ∧
    run_script true "C:/x" (Except.ok (JsonValue.collection [])) [] 33 ≠
      RunResult.abortedEnumeration := by
  decide

/-- Claim C3, amended: a `None` enumeration result (any error path) aborts
the run before the selector and the elevation call; an *empty* adapter list
does not abort — the selector returns an empty SelectionSet without entering
the prompt loop, and the elevation call is still made with an empty
identifier string. -/
theorem enumeration_abort_behaviour (path : String) (inputs : List String)
    (ret : Int) (e : EnumError) :
    run_script true path (Except.error e) inputs ret = RunResult.abortedEnumeration ∧
    select_guids_for_tweaks [] inputs = ([Msg.noAdapters], SelectResult.returns []) ∧
    run_script true path (Except.ok (JsonValue.collection [])) inputs ret =
      RunResult.launched (script_parameters path []) (launch_outcome ret) :=
  ⟨rfl, rfl, rfl⟩

/-! Helper lemmas about single iterations of the selection loop. -/

/-- A line whose normal form parses as an integer is not the `done` control
word. -/
lemma pyNorm_ne_done_of_int {line : String} {n : Int}
    (hn : pyInt? (pyNorm line) = some n) : pyNorm line ≠ "done" := by
  intro he
  rw [he] at hn
  exact Option.noConfusion ((show pyInt? "done" = none from rfl) ▸ hn)

/-- A line whose normal form parses as an integer is not the `skip` control
word. -/
lemma pyNorm_ne_skip_of_int {line : String} {n : Int}
    (hn : pyInt? (pyNorm line) = some n) : pyNorm line ≠ "skip" := by
  intro he
  rw [he] at hn
  exact Option.noConfusion ((show pyInt? "skip" = none from rfl) ▸ hn)

/-- A `skip` line makes the loop body return an empty list at once. -/
lemma selectStep_skip {adapters : List Adapter} {guids : List String} {line : String}
    (h : pyNorm line = "skip") :
    selectStep adapters guids line = .ret [Msg.skipAll] [] := by
  rw [selectStep]
  simp [h]

/-- An in-range selection whose GUID is already selected leaves
`selected_guids` unchanged and continues the loop with the already-selected
notice (lines 95-96), provided the unchanged list does not cover all
adapters. -/
lemma selectStep_already {adapters : List Adapter} {guids : List String}
    {line : String} {n : Int} {a : Adapter} {g : String}
    (hn : pyInt? (pyNorm line) = some n)
    (h1 : 1 ≤ n) (h2 : n ≤ (adapters.length : Int))
    (ha : adapters.getD (n - 1).toNat default = a)
    (hg : a.InterfaceGuid = some g)
    (hmem : g ∈ guids)
    (hlen : guids.length ≠ adapters.length) :
    selectStep adapters guids line = .next [Msg.alreadySelected a.Name] guids := by
  rw [selectStep]
  simp only [pyNorm_ne_done_of_int hn, pyNorm_ne_skip_of_int hn, if_false, hn, ha, hg,
    if_pos (And.intro h1 h2), if_pos hmem, if_neg hlen]
  have : ¬ guids.isEmpty = true := by
    simp [List.isEmpty_iff]
    exact List.ne_nil_of_mem hmem
  simp [this]

/-- An in-range selection of a fresh GUID appends it and continues the loop,
provided the grown list does not yet cover all adapters. -/
lemma selectStep_added {adapters : List Adapter} {guids : List String}
    {line : String} {n : Int} {a : Adapter} {g : String}
    (hn : pyInt? (pyNorm line) = some n)
    (h1 : 1 ≤ n) (h2 : n ≤ (adapters.length : Int))
    (ha : adapters.getD (n - 1).toNat default = a)
    (hg : a.InterfaceGuid = some g)
    (hmem : g ∉ guids)
    (hlen : (guids ++ [g]).length ≠ adapters.length) :
    selectStep adapters guids line = .next [Msg.added a.Name g] (guids ++ [g]) := by
  rw [selectStep]
  simp only [pyNorm_ne_done_of_int hn, pyNorm_ne_skip_of_int hn, if_false, hn, ha, hg,
    if_pos (And.intro h1 h2), if_neg hmem, if_neg hlen]
  have : ¬ (guids ++ [g]).isEmpty = true := by simp
  simp [this]

/-- An in-range selection of a fresh GUID that brings `selected_guids` to
cover every adapter exits the loop through the all-selected break of lines
98-100. -/
lemma selectStep_added_full {adapters : List Adapter} {guids : List String}
    {line : String} {n : Int} {a : Adapter} {g : String}
    (hn : pyInt? (pyNorm line) = some n)
    (h1 : 1 ≤ n) (h2 : n ≤ (adapters.length : Int))
    (ha : adapters.getD (n - 1).toNat default = a)
    (hg : a.InterfaceGuid = some g)
    (hmem : g ∉ guids)
    (hlen : (guids ++ [g]).length = adapters.length) :
    selectStep adapters guids line = .ret [Msg.added a.Name g, Msg.allSelected] (guids ++ [g]) := by
  rw [selectStep]
  simp only [pyNorm_ne_done_of_int hn, pyNorm_ne_skip_of_int hn, if_false, hn, ha, hg,
    if_pos (And.intro h1 h2), if_neg hmem, if_pos hlen]

/-- The loop body never reaches the `add_more_choice` prompt: the guard
`if not selected_guids` of line 102 is evaluated after the chosen GUID was
appended (or found already present), so `selected_guids` is never empty
there. -/
lemma selectStep_ne_ask (adapters : List Adapter) (guids : List String) (line : String)
    (msgs : List Msg) (guids2 : List String) :
    selectStep adapters guids line ≠ .ask msgs guids2 := by
  intro h
  rw [selectStep] at h
  repeat' split at h
  all_goals try exact StepAction.noConfusion h
  simp only [] at h
  repeat' split at h
  all_goals try exact StepAction.noConfusion h
  all_goals simp_all [List.isEmpty_iff]

/-- No message list produced by the loop body contains the add-more
prompt. -/
lemma selectStep_addMore_free (adapters : List Adapter) (guids : List String) (line : String)
    (act : StepAction) (h : selectStep adapters guids line = act) :
    Msg.addMorePrompt ∉ act.msgList := by
  rw [selectStep] at h
  repeat' split at h
  all_goals try simp only [] at h
  all_goals repeat' split at h
  all_goals rw [← h]
  all_goals simp_all [StepAction.msgList, List.isEmpty_iff]

/-- The iteration prompt is never the add-more prompt. -/
lemma promptMsg_ne_addMore (guids : List String) : Msg.addMorePrompt ≠ promptMsg guids := by
  rw [promptMsg]; split <;> simp

/-- The selection loop never prints the add-more prompt, whatever the state
and the input lines. -/
lemma selectLoop_trace_addMore_free (adapters : List Adapter) :
    ∀ (guids inputs : List String), Msg.addMorePrompt ∉ (selectLoop adapters guids inputs).1 := by
  intro guids inputs
  induction guids, inputs using selectLoop.induct adapters with
  | case1 guids => simpa [selectLoop] using promptMsg_ne_addMore guids
  | case2 guids ans rest2 m res h =>
    have hm := selectStep_addMore_free adapters guids ans _ h
    simp only [StepAction.msgList] at hm
    rw [selectLoop, h]
    simp_all
    exact promptMsg_ne_addMore guids
  | case3 guids ans rest2 m h =>
    have hm := selectStep_addMore_free adapters guids ans _ h
    simp only [StepAction.msgList] at hm
    rw [selectLoop, h]
    simp_all
    exact promptMsg_ne_addMore guids
  | case4 guids ans rest2 m g2 h ih =>
    have hm := selectStep_addMore_free adapters guids ans _ h
    simp only [StepAction.msgList] at hm
    rw [selectLoop, h]
    simp_all
    exact promptMsg_ne_addMore guids
  | case5 guids ans m g2 h => exact absurd h (selectStep_ne_ask adapters guids ans m g2)
  | case6 guids ans m g2 h _ _ _ _ => exact absurd h (selectStep_ne_ask adapters guids ans m g2)
  | case7 guids ans m g2 h _ _ _ => exact absurd h (selectStep_ne_ask adapters guids ans m g2)

/-- Claim C2: the spec says that after the first successful selection the
selector asks an inline add-another question whose non-affirmative answer
ends the loop with the single-element SelectionSet.  The code never does:
the guard `if not selected_guids` of line 102 runs after the append, so the
prompt of line 103 is dead code (contradicting the code's own comment
`If first selection, ask to add more immediately`).  Concretely, with two
adapters and inputs `1`, `no`, the loop treats `no` as invalid input and
blocks for more input while holding `["G1"]`, instead of returning
`["G1"]`. -/
theorem add_more_prompt_never_reached :
    (∀ (adapters : List Adapter) (guids inputs : List String),
      Msg.addMorePrompt ∉ (selectLoop adapters guids inputs).1) ∧
    (select_guids_for_tweaks demoAdapters ["1", "no"]).2 = SelectResult.outOfInput ["G1"] ∧
    Msg.addMorePrompt ∉ (select_guids_for_tweaks demoAdapters ["1", "no"]).1 :=
  ⟨fun adapters guids inputs => selectLoop_trace_addMore_free adapters guids inputs,
   by decide, by decide⟩

/-- Claim C7: a `skip` input line, at any point of the selector loop and in
any state, immediately returns the empty SelectionSet, discarding the
identifiers appended earlier in the call; the trace shows the loop stops at
the skip notice and never processes the remaining lines. -/
theorem skip_discards_and_returns_empty (adapters : List Adapter) (guids : List String)
    (line : String) (rest : List String) (h : pyNorm line = "skip") :
    selectLoop adapters guids (line :: rest) =
      ([promptMsg guids, Msg.skipAll], SelectResult.returns []) := by
  rw [selectLoop, selectStep_skip h]

/-- Witness for claim C7's theorem at a concrete state: one GUID already
selected, a decorated `" SKIP "` line, and a pending further line. -/
theorem skip_discards_witness :
    pyNorm " SKIP " = "skip" ∧
    selectLoop demoAdapters ["G1"] [" SKIP ", "2"] =
      ([promptMsg ["G1"], Msg.skipAll], SelectResult.returns []) :=
  ⟨by decide, skip_discards_and_returns_empty demoAdapters ["G1"] " SKIP " ["2"] (by decide)⟩

/-- Claim C6: selecting the index of an adapter whose GUID is already in
`selected_guids` is a no-op on the selection: the loop prints the
already-selected notice and continues with contents and size unchanged. -/
theorem reselect_is_noop (adapters : List Adapter) (guids : List String)
    (line : String) (rest : List String) (n : Int) (a : Adapter) (g : String)
    (hn : pyInt? (pyNorm line) = some n)
    (h1 : 1 ≤ n) (h2 : n ≤ (adapters.length : Int))
    (ha : adapters.getD (n - 1).toNat default = a)
    (hg : a.InterfaceGuid = some g)
    (hmem : g ∈ guids)
    (hlen : guids.length ≠ adapters.length) :
    (selectLoop adapters guids (line :: rest)).2 = (selectLoop adapters guids rest).2 ∧
    (selectLoop adapters guids (line :: rest)).1 =
      Msg.promptMore guids :: Msg.alreadySelected a.Name :: (selectLoop adapters guids rest).1 := by
  rw [selectLoop, selectStep_already hn h1 h2 ha hg hmem hlen]
  have hne : ¬ guids.isEmpty = true := by
    simp [List.isEmpty_iff]; exact List.ne_nil_of_mem hmem
  constructor
  · rfl
  · simp [promptMsg, hne]

/-- Witness for claim C6's theorem: re-selecting adapter 1 while its GUID is
already the sole selection. -/
theorem reselect_is_noop_witness :
    pyInt? (pyNorm "1") = some 1 ∧ (1 : Int) ≤ 1 ∧ (1 : Int) ≤ (demoAdapters.length : Int) ∧
    demoAdapters.getD ((1 : Int) - 1).toNat default = ⟨"EthA", "dA", some "G1"⟩ ∧
    (Adapter.mk "EthA" "dA" (some "G1")).InterfaceGuid = some "G1" ∧
    "G1" ∈ ["G1"] ∧ (["G1"] : List String).length ≠ demoAdapters.length ∧
    ((selectLoop demoAdapters ["G1"] ["1", "done"]).2 =
        (selectLoop demoAdapters ["G1"] ["done"]).2 ∧
      (selectLoop demoAdapters ["G1"] ["1", "done"]).1 =
        Msg.promptMore ["G1"] :: Msg.alreadySelected "EthA" ::
          (selectLoop demoAdapters ["G1"] ["done"]).1) :=
  ⟨by decide, by decide, by decide, by decide, by decide, by decide, by decide,
    reselect_is_noop demoAdapters ["G1"] "1" ["done"] 1 ⟨"EthA", "dA", some "G1"⟩ "G1"
      (by decide) (by decide) (by decide) (by decide) (by decide) (by decide) (by decide)⟩

/-! The `KeyError` analysis (claim C9). -/

/-- The loop body cannot raise `KeyError` when every record carries the
`InterfaceGuid` key: the range guard of line 89 puts the index in bounds, so
the chosen record is a member of the list. -/
lemma selectStep_no_err (adapters : List Adapter) (guids : List String) (line : String)
    (msgs : List Msg) (hall : ∀ a ∈ adapters, (a.InterfaceGuid).isSome) :
    selectStep adapters guids line ≠ .err msgs := by
  intro h
  rw [selectStep] at h
  repeat' split at h
  all_goals try exact StepAction.noConfusion h
  all_goals try simp only [] at h
  all_goals repeat' split at h
  all_goals try exact StepAction.noConfusion h
  rename_i hdone hskip x1 n hparse hrange x2 hguid
  have hlt : (n - 1).toNat < adapters.length := by omega
  rw [List.getD_eq_getElem _ _ hlt] at hguid
  have hs := hall _ (List.getElem_mem hlt)
  rw [hguid] at hs
  simp at hs

/-- The selection loop never ends in `KeyError` when every record carries
the `InterfaceGuid` key. -/
lemma selectLoop_no_keyError (adapters : List Adapter)
    (hall : ∀ a ∈ adapters, (a.InterfaceGuid).isSome) :
    ∀ (guids inputs : List String),
      (selectLoop adapters guids inputs).2 ≠ SelectResult.keyError := by
  intro guids inputs
  induction guids, inputs using selectLoop.induct adapters with
  | case1 guids => simp [selectLoop]
  | case2 guids ans rest2 m res h => rw [selectLoop, h]; simp
  | case3 guids ans rest2 m h => exact absurd h (selectStep_no_err adapters guids ans m hall)
  | case4 guids ans rest2 m g2 h ih => rw [selectLoop, h]; simpa using ih
  | case5 guids ans m g2 h => exact absurd h (selectStep_ne_ask adapters guids ans m g2)
  | case6 guids ans m g2 h _ _ _ _ => exact absurd h (selectStep_ne_ask adapters guids ans m g2)
  | case7 guids ans m g2 h _ _ _ => exact absurd h (selectStep_ne_ask adapters guids ans m g2)

/-- Claim C9: the selector reads `chosen_adapter['InterfaceGuid']` without a
guard and the loop only catches `ValueError`, so `select_guids_for_tweaks`
never raises exactly when every record of the input list carries the
`InterfaceGuid` key; for a record lacking it, selecting that record's index
raises an uncaught `KeyError`, even though the listing display tolerates the
missing key through the `'N/A'` default of `adapter.get`. -/
theorem selector_requires_guid_key (adapters : List Adapter) (inputs : List String)
    (hall : ∀ a ∈ adapters, (a.InterfaceGuid).isSome) :
    (select_guids_for_tweaks adapters inputs).2 ≠ SelectResult.keyError ∧
    (select_guids_for_tweaks [ghostAdapter] ["1"]).2 = SelectResult.keyError ∧
    Msg.adapterLine 1 "Ghost" "dG" "N/A" ∈ (select_guids_for_tweaks [ghostAdapter] ["1"]).1 := by
  refine ⟨?_, by decide, by decide⟩
  rw [select_guids_for_tweaks]
  split
  · simp
  · exact selectLoop_no_keyError adapters hall [] inputs

/-- Witness for claim C9's theorem on the two-adapter environment whose
records all carry the `InterfaceGuid` key. -/
theorem selector_requires_guid_key_witness :
    (∀ a ∈ demoAdapters, (a.InterfaceGuid).isSome) ∧
    ((select_guids_for_tweaks demoAdapters ["2", "done"]).2 ≠ SelectResult.keyError ∧
     (select_guids_for_tweaks [ghostAdapter] ["1"]).2 = SelectResult.keyError ∧
     Msg.adapterLine 1 "Ghost" "dG" "N/A" ∈ (select_guids_for_tweaks [ghostAdapter] ["1"]).1) :=
  ⟨by decide, selector_requires_guid_key demoAdapters ["2", "done"] (by decide)⟩

/-! The selection-list invariant (claim C10). -/

/-- A GUID read through the guarded index of lines 89-91 belongs to some
record of the adapter list. -/
lemma getD_guid_mem {adapters : List Adapter} {n : Int} {g : String}
    (heq : (adapters.getD (n - 1).toNat default).InterfaceGuid = some g)
    (hr : 1 ≤ n ∧ n ≤ (adapters.length : Int)) :
    ∃ a ∈ adapters, a.InterfaceGuid = some g := by
  have hlt : (n - 1).toNat < adapters.length := by omega
  rw [List.getD_eq_getElem _ _ hlt] at heq
  exact ⟨_, List.getElem_mem hlt, heq⟩

/-- Per-iteration evolution of `selected_guids`: an exiting iteration
(`ret`) resets to empty, keeps the list, or appends one fresh GUID of the
adapter list; a continuing iteration (`next` or `ask`) never resets. -/
lemma selectStep_extension (adapters : List Adapter) (guids : List String) (line : String)
    (act : StepAction) (h : selectStep adapters guids line = act) :
    ∀ m gs,
      (act = .ret m gs → GuidExtension adapters guids gs) ∧
      ((act = .next m gs ∨ act = .ask m gs) →
        gs = guids ∨
          ∃ g, (∃ a ∈ adapters, a.InterfaceGuid = some g) ∧ g ∉ guids ∧ gs = guids ++ [g]) := by
  rw [selectStep] at h
  repeat' split at h
  all_goals try simp only [] at h
  all_goals repeat' split at h
  all_goals subst h
  all_goals intro m gs
  all_goals constructor
  all_goals intro h1
  all_goals try rcases h1 with h1 | h1
  all_goals first
    | exact StepAction.noConfusion h1
    | (injection h1 with e1 e2; subst e2; simp [GuidExtension])
    | skip
  all_goals first
    | exact Or.inl rfl
    | exact Or.inr (Or.inl rfl)
    | exact ⟨getD_guid_mem (by assumption) (by assumption), by assumption⟩
    | exact Or.inr (Or.inr ⟨_, getD_guid_mem (by assumption) (by assumption), by assumption, rfl⟩)

/-- Appending a fresh GUID of the adapter list preserves the selection
invariant. -/
lemma selInv_extend {adapters : List Adapter} {guids : List String} {g : String}
    (hinv : SelInv adapters guids)
    (hga : ∃ a ∈ adapters, a.InterfaceGuid = some g)
    (hgn : g ∉ guids) :
    SelInv adapters (guids ++ [g]) := by
  constructor
  · simp [List.nodup_append, hinv.1, hgn]
  · intro x hx
    rcases List.mem_append.mp hx with hx | hx
    · exact hinv.2 x hx
    · rw [List.mem_singleton.mp hx]
      exact hga

/-- The loop preserves the selection invariant from any invariant state, and
the delivered list is empty or extends the starting state at the back. -/
lemma selectLoop_inv (adapters : List Adapter) :
    ∀ (guids inputs : List String), SelInv adapters guids →
      ∀ gs, ((selectLoop adapters guids inputs).2 = SelectResult.returns gs ∨
             (selectLoop adapters guids inputs).2 = SelectResult.outOfInput gs) →
        SelInv adapters gs ∧ (gs = [] ∨ ∃ t, gs = guids ++ t) := by
  intro guids inputs
  induction guids, inputs using selectLoop.induct adapters with
  | case1 guids =>
    intro hinv gs hres
    simp [selectLoop] at hres
    subst hres
    exact ⟨hinv, Or.inr ⟨[], by simp⟩⟩
  | case2 guids ans rest2 m res h =>
    intro hinv gs hres
    rw [selectLoop, h] at hres
    simp at hres
    subst hres
    have hext := ((selectStep_extension adapters guids ans _ h) m res).1 rfl
    rcases hext with rfl | rfl | ⟨g, hga, hgn, rfl⟩
    · exact ⟨⟨List.nodup_nil, by simp⟩, Or.inl rfl⟩
    · exact ⟨hinv, Or.inr ⟨[], by simp⟩⟩
    · exact ⟨selInv_extend hinv hga hgn, Or.inr ⟨[g], rfl⟩⟩
  | case3 guids ans rest2 m h =>
    intro hinv gs hres
    rw [selectLoop, h] at hres
    simp at hres
  | case4 guids ans rest2 m g2 h ih =>
    intro hinv gs hres
    rw [selectLoop, h] at hres
    simp only [] at hres
    have hcont := ((selectStep_extension adapters guids ans _ h) m g2).2 (Or.inl rfl)
    rcases hcont with rfl | ⟨g, hga, hgn, rfl⟩
    · exact ih hinv gs hres
    · obtain ⟨h1, h2⟩ := ih (selInv_extend hinv hga hgn) gs hres
      refine ⟨h1, ?_⟩
      rcases h2 with rfl | ⟨t, rfl⟩
      · exact Or.inl rfl
      · exact Or.inr ⟨[g] ++ t, by simp⟩
  | case5 guids ans m g2 h => exact absurd h (selectStep_ne_ask adapters guids ans m g2)
  | case6 guids ans m g2 h _ _ _ _ => exact absurd h (selectStep_ne_ask adapters guids ans m g2)
  | case7 guids ans m g2 h _ _ _ => exact absurd h (selectStep_ne_ask adapters guids ans m g2)

/-- Claim C10: from any state satisfying the selection invariant — in
particular from the empty state the loop starts in — the value the loop
holds or delivers is duplicate-free, draws every element from the
`InterfaceGuid` of some input record, and extends the starting state at the
back (append-only, so elements stay in first-selected order); `skip` and the
empty `done` reset to the empty list.  Instantiating `guids` with any
reachable state makes this the statement that every input line preserves the
invariant. -/
theorem selection_set_invariant (adapters : List Adapter) (guids inputs gs : List String)
    (hinv : SelInv adapters guids)
    (hres : (selectLoop adapters guids inputs).2 = SelectResult.returns gs ∨
            (selectLoop adapters guids inputs).2 = SelectResult.outOfInput gs) :
    SelInv adapters gs ∧ (gs = [] ∨ ∃ t, gs = guids ++ t) :=
  selectLoop_inv adapters guids inputs hinv gs hres

/-- Witness for claim C10's theorem: the empty starting state and the single
input line `1` on the two-adapter environment. -/
theorem selection_set_invariant_witness :
    (SelInv demoAdapters [] ∧
      ((selectLoop demoAdapters [] ["1"]).2 = SelectResult.returns ["G1"] ∨
       (selectLoop demoAdapters [] ["1"]).2 = SelectResult.outOfInput ["G1"])) ∧
    (SelInv demoAdapters ["G1"] ∧
      ((["G1"] : List String) = [] ∨ ∃ t, (["G1"] : List String) = [] ++ t)) :=
  ⟨⟨by simp [SelInv], Or.inr (by decide)⟩,
    selection_set_invariant demoAdapters [] ["1"] ["G1"] (by simp [SelInv]) (Or.inr (by decide))⟩

/-! Selecting every adapter (claim C5). -/

/-- From the state where the first `j` GUIDs are selected, feeding the
remaining lines `j+1, ..., n` makes the loop exit through the all-selected
break with the full GUID list. -/
lemma selectLoop_select_all (adapters : List Adapter) (gs : List String)
    (hmap : adapters.map Adapter.InterfaceGuid = gs.map some)
    (hnd : gs.Nodup)
    (inputs : List String)
    (hlen : inputs.length = adapters.length)
    (hsel : ∀ j, j < inputs.length → pyInt? (pyNorm (inputs.getD j "")) = some ((j : Int) + 1)) :
    ∀ k j, j + k = adapters.length → j < adapters.length →
      (selectLoop adapters (gs.take j) (inputs.drop j)).2 = SelectResult.returns gs := by
  have hglen : gs.length = adapters.length := by
    have := congrArg List.length hmap
    simpa using this.symm
  intro k
  induction k with
  | zero => intro j hjk hj; omega
  | succ k ih =>
    intro j hjk hj
    have hjin : j < inputs.length := by omega
    have hjgs : j < gs.length := by omega
    have hja : j < adapters.length := by omega
    have hdrop : inputs.drop j = inputs.getD j "" :: inputs.drop (j + 1) := by
      rw [List.getD_eq_getElem _ _ hjin]
      exact List.drop_eq_getElem_cons hjin
    have hn := hsel j hjin
    have htoNat : (((j : Int) + 1) - 1).toNat = j := by omega
    have ha : adapters.getD ((((j : Int) + 1) - 1)).toNat default = adapters[j] := by
      rw [htoNat]
      exact List.getD_eq_getElem _ _ hja
    have hg : (adapters[j]).InterfaceGuid = some (gs[j]) := by
      have h1 : (adapters.map Adapter.InterfaceGuid).getD j none = (gs.map some).getD j none := by
        rw [hmap]
      rw [List.getD_eq_getElem _ _ (by simp; omega), List.getD_eq_getElem _ _ (by simp; omega)]
        at h1
      simpa using h1
    have hmem : gs[j] ∉ gs.take j := by
      intro hm
      rw [List.mem_take_iff_getElem] at hm
      obtain ⟨i, hi, hig⟩ := hm
      have : i = j := by
        have hi2 : i < gs.length := by omega
        exact (List.Nodup.getElem_inj_iff hnd).mp hig
      omega
    have htake : gs.take j ++ [gs[j]] = gs.take (j + 1) := by
      rw [← List.take_concat_get gs j hjgs]
      simp
    have h1n : (1 : Int) ≤ (j : Int) + 1 := by omega
    have h2n : (j : Int) + 1 ≤ (adapters.length : Int) := by omega
    rw [hdrop]
    by_cases hfull : j + 1 = adapters.length
    · have hlen2 : (gs.take j ++ [gs[j]]).length = adapters.length := by
        rw [htake, List.length_take]
        omega
      rw [selectLoop, selectStep_added_full hn h1n h2n ha hg hmem hlen2]
      have : gs.take j ++ [gs[j]] = gs := by
        rw [htake]
        have : j + 1 = gs.length := by omega
        rw [this, List.take_length]
      rw [this]
    · have hlen2 : (gs.take j ++ [gs[j]]).length ≠ adapters.length := by
        rw [htake, List.length_take]
        omega
      rw [selectLoop, selectStep_added hn h1n h2n ha hg hmem hlen2]
      simp only []
      rw [htake]
      exact ih (j + 1) (by omega) (by omega)

/-- Claim C5: for a non-empty adapter list whose GUIDs are pairwise
distinct (expressed as `gs.Nodup` with `gs` the GUID column), the input
sequence `1, 2, ..., n` — every line a plain number, so no `done` occurs —
selects every adapter and makes the loop terminate automatically through the
all-selected break, returning the full GUID list in selection order. -/
theorem select_all_terminates (adapters : List Adapter) (gs : List String) (inputs : List String)
    (hne : adapters ≠ [])
    (hmap : adapters.map Adapter.InterfaceGuid = gs.map some)
    (hnd : gs.Nodup)
    (hlen : inputs.length = adapters.length)
    (hsel : ∀ j, j < inputs.length → pyInt? (pyNorm (inputs.getD j "")) = some ((j : Int) + 1)) :
    (select_guids_for_tweaks adapters inputs).2 = SelectResult.returns gs := by
  rw [select_guids_for_tweaks]
  have hA : ¬ adapters.isEmpty = true := by simp [List.isEmpty_iff]; exact hne
  simp only [hA, if_false]
  have h0 := selectLoop_select_all adapters gs hmap hnd inputs hlen hsel adapters.length 0
    (by omega) (List.length_pos.mpr hne)
  simpa using h0

/-- Witness for claim C5's theorem: both demo adapters selected by the
inputs `1`, `2`. -/
theorem select_all_terminates_witness :
    (demoAdapters ≠ [] ∧
     demoAdapters.map Adapter.InterfaceGuid = (["G1", "G2"] : List String).map some ∧
     (["G1", "G2"] : List String).Nodup ∧
     (["1", "2"] : List String).length = demoAdapters.length ∧
     (∀ j, j < (["1", "2"] : List String).length →
       pyInt? (pyNorm ((["1", "2"] : List String).getD j "")) = some ((j : Int) + 1))) ∧
    (select_guids_for_tweaks demoAdapters ["1", "2"]).2 = SelectResult.returns ["G1", "G2"] :=
  ⟨⟨by decide, by decide, by decide, by decide, by decide⟩,
    select_all_terminates demoAdapters ["G1", "G2"] ["1", "2"]
      (by decide) (by decide) (by decide) (by decide) (by decide)⟩

end GamingNetOpt
